import Mathlib

/-!
Shallow embedding of the RC Arsenal backend, a thin HTTP proxy in front of
a Shopify store. The repository contains two revisions of the same server:
`src/server.js` (called V1 below) and `src/unnamed/part_000` (called V2).

Each HTTP handler is modelled as a pure function from the already-parsed
request data (and, for read endpoints, the upstream customer node returned
by the Shopify query) to the value it responds with. Upstream mutation
attempts are part of the returned value, so "no upstream call occurs" is a
statement about the result.

JavaScript specifics are modelled as follows:
* `x || y` on strings is `jsOr` (only `""` is falsy among strings);
  `undefined` string-typed values are `Option.none` and behave like `""`
  under `||`, which `optVal` makes explicit.
* `Number.parseInt(s, 10)` is `jsParseInt10`; `Option.none` models `NaN`
  (skip ASCII whitespace, optional sign, longest digit run; `NaN` when the
  digit run is empty).
* `JSON.parse` is `jsonParse` (defined further down), implementing the
  full JSON grammar; `none` models the thrown `SyntaxError`. Numerals are
  kept as their source text, since the handlers only test parsed values
  for truthiness.
-/

/-- JavaScript `a || b` for strings: only `""` is falsy. -/
def jsOr (a b : String) : String :=
  if a = "" then b else a

/-- Value of a possibly-`undefined` string: `undefined` behaves like `""`
under `||` (`optVal v` is `v ?? ""`, faithful wherever the source only
tests truthiness). -/
def optVal (v : Option String) : String :=
  v.getD ""

/-- ASCII whitespace recognised by the embedding of `trim` / `parseInt`
(space, tab, newline, carriage return; the handlers only meet these). -/
def isJsWs (c : Char) : Bool :=
  c = ' ' || c = '\t' || c = '\n' || c = '\r'

/-- `s.trim()` on the character list representation. -/
def jsTrim (s : String) : String :=
  String.mk (((s.data.dropWhile isJsWs).reverse.dropWhile isJsWs).reverse)

/-- Value of a run of decimal digits, most significant first. -/
def digitsToNat (ds : List Char) : Nat :=
  ds.foldl (fun a c => a * 10 + (c.toNat - 48)) 0

/-- Longest leading digit run of `cs`, or `none` when there is none
(`parseInt` returns `NaN` in that case). -/
def parseDigits (cs : List Char) : Option Nat :=
  match cs.takeWhile Char.isDigit with
  | [] => none
  | ds => some (digitsToNat ds)

/-- `Number.parseInt(s, 10)`: skip whitespace, optional sign, longest digit
prefix; `none` models `NaN`. -/
def jsParseInt10 (s : String) : Option Int :=
  match s.data.dropWhile isJsWs with
  | [] => none
  | c :: rest =>
    if c = '-' then (parseDigits rest).map (fun n => -(n : Int))
    else if c = '+' then (parseDigits rest).map (fun n => (n : Int))
    else (parseDigits (c :: rest)).map (fun n => (n : Int))

/-- `` `${node.firstName || ""} ${node.lastName || ""}`.trim() `` — the
fallback display name built from the platform-native name fields. -/
def fullName (first last : Option String) : String :=
  jsTrim (optVal first ++ " " ++ optVal last)

/-! ## Admin gate (`adminAuth` middleware, both revisions) -/

/-- Outcome of the `adminAuth` middleware: `next()` or a 403 response. -/
inductive AuthResult where
  | allow
  | deny
deriving DecidableEq, Repr

/-- V1 `adminAuth` (server.js:249-256): allow iff the `x-admin-secret`
header is present, truthy, and strictly equal to `ADMIN_SECRET`.
`envSecret = none` models an unset `ADMIN_SECRET` environment variable. -/
def adminAuthV1 (envSecret header : Option String) : AuthResult :=
  match header with
  | some h => if h ≠ "" ∧ envSecret = some h then .allow else .deny
  | none => .deny

/-- V2 `adminAuth` (part_000:273-284): if `ADMIN_SECRET` is falsy (unset or
empty) the middleware warns and calls `next()` — every request is allowed;
otherwise it behaves like V1. -/
def adminAuthV2 (envSecret header : Option String) : AuthResult :=
  if envSecret = none ∨ envSecret = some "" then .allow
  else
    match header with
    | some h => if h ≠ "" ∧ envSecret = some h then .allow else .deny
    | none => .deny

/-! ## POST /apps/update-customer (both revisions) -/

/-- One entry of the request body's `metafields` array. The handlers use
`mf.value` only through `toString()` / `String(...)`, so the embedding
carries the already-stringified value. -/
structure MetafieldInput where
  key : String
  value : String
  type : Option String := none
deriving DecidableEq, Repr

/-- Parsed JSON body of POST /apps/update-customer. `customerId = none`
models an absent id; `metafields = none` models an absent or non-array
value (both fail validation identically). -/
structure UpdateBody where
  customerId : Option String := none
  metafields : Option (List MetafieldInput) := none
deriving DecidableEq, Repr

/-- One metafield of the upstream `customerUpdate` mutation input. -/
structure MetafieldOut where
  nspace : String
  key : String
  value : String
  type : String
deriving DecidableEq, Repr

/-- The `input` variable of the upstream `customerUpdate` mutation. -/
structure CustomerInput where
  id : String
  metafields : List MetafieldOut
deriving DecidableEq, Repr

/-- What the update handler does before any network result is known:
either it answers 400 without calling upstream, or it attempts the
upstream mutation with the given input (the eventual 200/400/500 then
depends only on the upstream response, which is out of scope here). -/
inductive UpdateResult where
  | badRequest
  | upstream (input : CustomerInput)
deriving DecidableEq, Repr

/-- The per-entry mapping both revisions apply to `metafields`
(server.js:229-234, part_000:250-255): fixed namespace, stringified value,
`mf.type || "single_line_text_field"`. -/
def toShopifyMetafield (mf : MetafieldInput) : MetafieldOut :=
  { nspace := "rc_arsenal"
    key := mf.key
    value := mf.value
    type := jsOr (optVal mf.type) "single_line_text_field" }

/-- V1 customer-id qualification (server.js:137, 228): the prefix is
prepended unconditionally. -/
def qualifyIdV1 (c : String) : String :=
  "gid://shopify/Customer/" ++ c

/-- Character-list prefix test, used to embed `String.prototype.startsWith`. -/
def isPrefixChars : List Char → List Char → Bool
  | [], _ => true
  | _ :: _, [] => false
  | p :: ps, c :: cs => if p = c then isPrefixChars ps cs else false

/-- `customerId.startsWith("gid://shopify/Customer/")` from the V2 source. -/
def startsWithGid (s : String) : Bool :=
  isPrefixChars "gid://shopify/Customer/".data s.data

/-- V2 customer-id qualification (part_000:141-143, 245-247): pass an
already-qualified gid through, otherwise prepend the prefix. -/
def qualifyIdV2 (c : String) : String :=
  if startsWithGid c then c
  else "gid://shopify/Customer/" ++ c

/-- V1 POST /apps/update-customer (server.js:206-246) up to the upstream
call: 400 iff `!customerId || !metafields || !Array.isArray(metafields)`;
an empty array passes validation. -/
def updateCustomerV1 (b : UpdateBody) : UpdateResult :=
  match b.customerId, b.metafields with
  | some c, some mfs =>
    if c = "" then .badRequest
    else .upstream { id := qualifyIdV1 c, metafields := mfs.map toShopifyMetafield }
  | _, _ => .badRequest

/-- V2 POST /apps/update-customer (part_000:222-256): additionally rejects
an empty `metafields` array, and qualifies the id only when needed. -/
def updateCustomerV2 (b : UpdateBody) : UpdateResult :=
  match b.customerId, b.metafields with
  | some c, some mfs =>
    if c = "" ∨ mfs = [] then .badRequest
    else .upstream { id := qualifyIdV2 c, metafields := mfs.map toShopifyMetafield }
  | _, _ => .badRequest

/-! ## POST /apps/admin-update (adminAuth then the update handler) -/

/-- Outcome of POST /apps/admin-update: a 403 from the gate (the update
handler is never reached, so no upstream call can occur), or the update
handler's result. -/
inductive AdminOutcome where
  | denied
  | handled (r : UpdateResult)
deriving DecidableEq, Repr

/-- V1 POST /apps/admin-update (server.js:262-266): `adminAuth` then the
re-dispatched update-customer handler. -/
def adminUpdateV1 (envSecret header : Option String) (b : UpdateBody) : AdminOutcome :=
  match adminAuthV1 envSecret header with
  | .allow => .handled (updateCustomerV1 b)
  | .deny => .denied

/-- V2 POST /apps/admin-update (part_000:286-295). -/
def adminUpdateV2 (envSecret header : Option String) (b : UpdateBody) : AdminOutcome :=
  match adminAuthV2 envSecret header with
  | .allow => .handled (updateCustomerV2 b)
  | .deny => .denied

/-! ## GET /apps/killboard (both revisions) -/

/-- One customer node of the killboard query response. Metafield values
are `Option String` (`none` when the metafield is absent). `displayName`
is only requested by the V2 query; the V1 builder ignores it, which is
exactly what the V1 source does. In V2 the `tier` alias reads the
`tier_text` metafield; the node abstracts over the upstream key. -/
structure KillboardNode where
  id : String
  displayName : Option String := none
  firstName : Option String := none
  lastName : Option String := none
  username : Option String := none
  level : Option String := none
  xp : Option String := none
  victories : Option String := none
  tier : Option String := none
  country : Option String := none
  avatar : Option String := none
deriving DecidableEq, Repr

/-- One entry of the killboard response array. The numeric fields are
`Option Int`, with `none` modelling `NaN`. -/
structure Player where
  id : String
  name : String
  level : Option Int
  xp : Option Int
  victories : Option Int
  tier : String
  country : String
  avatar : String
deriving DecidableEq, Repr

/-- V1 killboard entry builder (server.js:87-96). -/
def mkPlayerV1 (n : KillboardNode) : Player :=
  { id := n.id
    name := jsOr (optVal n.username)
      (jsOr (fullName n.firstName n.lastName) "Unnamed Pilot")
    level := jsParseInt10 (jsOr (optVal n.level) "1")
    xp := jsParseInt10 (jsOr (optVal n.xp) "0")
    victories := jsParseInt10 (jsOr (optVal n.victories) "0")
    tier := jsOr (optVal n.tier) "Recruit"
    country := jsOr (optVal n.country) "Unknown"
    avatar := optVal n.avatar }

/-- V2 killboard entry builder (part_000:93-106): like V1 but the name
falls back to the platform `displayName` before the first/last pair. -/
def mkPlayerV2 (n : KillboardNode) : Player :=
  { id := n.id
    name := jsOr (optVal n.username)
      (jsOr (optVal n.displayName)
        (jsOr (fullName n.firstName n.lastName) "Unnamed Pilot"))
    level := jsParseInt10 (jsOr (optVal n.level) "1")
    xp := jsParseInt10 (jsOr (optVal n.xp) "0")
    victories := jsParseInt10 (jsOr (optVal n.victories) "0")
    tier := jsOr (optVal n.tier) "Recruit"
    country := jsOr (optVal n.country) "Unknown"
    avatar := optVal n.avatar }

/-- Sort key of `players.sort((a, b) => b.xp - a.xp)`. When some `xp` is
`NaN` the engine's comparison order is unspecified, so the embedding fixes
`NaN` at `0` and the theorems about the sort carry the hypothesis that
every `xp` is numeric. -/
def xpKey (p : Player) : Int :=
  p.xp.getD 0

/-- Insert `p` (an element occurring before every element of the already
sorted list) keeping the list sorted by `xpKey` descending; on ties `p`
stays first, which is what the required-stable `Array.prototype.sort`
does. -/
def insertByXpDesc (p : Player) : List Player → List Player
  | [] => [p]
  | q :: qs => if xpKey p < xpKey q then q :: insertByXpDesc p qs else p :: q :: qs

/-- Stable sort by `xpKey` descending (`players.sort((a, b) => b.xp - a.xp)`,
server.js:99 / part_000:108). -/
def sortByXpDesc : List Player → List Player
  | [] => []
  | p :: ps => insertByXpDesc p (sortByXpDesc ps)

/-- V1 GET /apps/killboard (server.js:64-105) after a successful upstream
query returning `nodes` (most recently updated first). -/
def killboardV1 (nodes : List KillboardNode) : List Player :=
  sortByXpDesc (nodes.map mkPlayerV1)

/-- V2 GET /apps/killboard (part_000:69-113). -/
def killboardV2 (nodes : List KillboardNode) : List Player :=
  sortByXpDesc (nodes.map mkPlayerV2)

/-! ## JSON values and a model of `JSON.parse`

The handlers call `JSON.parse` on metafield values (achievements). The
model below implements the full JSON grammar — whitespace, `null`, `true`,
`false`, numerals (integer part without leading zeros, optional fraction
and exponent), strings with all escapes including `\uXXXX`, arrays and
objects — and rejects everything outside it (`none` models the
`SyntaxError` throw), so that the success/failure boundary of the
handlers' parse calls is that of `JSON.parse`. Two representational
choices avoid modelling IEEE doubles: a numeral is kept as its source
text (`Json.num`), and the handlers only test parsed values for
truthiness, for which `jsonNumIsZero` decides zero-ness syntactically
from the mantissa; a `\uXXXX` escape denoting a lone surrogate decodes to
`Char.ofNat`'s default, which does not affect where parsing succeeds. -/

/-- Structured JSON values. A numeral is kept as the exact text the
parser consumed (e.g. `"1.5"`, `"-0"`, `"2e10"`). -/
inductive Json where
  | null
  | bool (b : Bool)
  | num (lit : String)
  | str (s : String)
  | arr (elems : List Json)
  | obj (fields : List (String × Json))

/-- The character `{` (written via its code point). -/
def lbrace : Char := Char.ofNat 123

/-- The character `}` (written via its code point). -/
def rbrace : Char := Char.ofNat 125

/-- Single-character JSON string escapes (`\uXXXX` is handled separately
in `parseJsonStrChars`). -/
def jsonEscChar (c : Char) : Option Char :=
  if c = '"' ∨ c = '\\' ∨ c = '/' then some c
  else if c = 'n' then some '\n'
  else if c = 't' then some '\t'
  else if c = 'r' then some '\r'
  else if c = 'b' then some (Char.ofNat 8)
  else if c = 'f' then some (Char.ofNat 12)
  else none

/-- Hexadecimal digit test for `\uXXXX` escapes. -/
def isHexDigit (c : Char) : Bool :=
  c.isDigit || (97 ≤ c.toNat && c.toNat ≤ 102) || (65 ≤ c.toNat && c.toNat ≤ 70)

/-- Value of a hexadecimal digit. -/
def hexVal (c : Char) : Nat :=
  if c.isDigit then c.toNat - 48
  else if 97 ≤ c.toNat then c.toNat - 87
  else c.toNat - 55

/-- Parse the body of a JSON string after the opening quote; returns the
decoded characters and the input following the closing quote. -/
def parseJsonStrChars : List Char → Option (List Char × List Char)
  | [] => none
  | c :: cs =>
    if c = '"' then some ([], cs)
    else if c = '\\' then
      match cs with
      | [] => none
      | 'u' :: h1 :: h2 :: h3 :: h4 :: cs2 =>
        if isHexDigit h1 && isHexDigit h2 && isHexDigit h3 && isHexDigit h4 then
          (parseJsonStrChars cs2).map (fun p =>
            (Char.ofNat (((hexVal h1 * 16 + hexVal h2) * 16 + hexVal h3) * 16 + hexVal h4)
              :: p.1, p.2))
        else none
      | e :: cs2 =>
        match jsonEscChar e with
        | none => none
        | some ec => (parseJsonStrChars cs2).map (fun p => (ec :: p.1, p.2))
    else if c.toNat < 32 then none
    else (parseJsonStrChars cs).map (fun p => (c :: p.1, p.2))

/-- Scan the optional exponent of a JSON numeral (`[eE][+-]?[0-9]+`);
`acc` holds the characters consumed so far. -/
def scanJsonExp (acc : List Char) (cs : List Char) : Option (List Char × List Char) :=
  match cs with
  | [] => some (acc, [])
  | c :: rest =>
    if c = 'e' ∨ c = 'E' then
      match rest with
      | [] => none
      | s :: rest2 =>
        if s = '+' ∨ s = '-' then
          match rest2.takeWhile Char.isDigit with
          | [] => none
          | es => some (acc ++ c :: s :: es, rest2.dropWhile Char.isDigit)
        else
          match rest.takeWhile Char.isDigit with
          | [] => none
          | es => some (acc ++ c :: es, rest.dropWhile Char.isDigit)
    else some (acc, cs)

/-- Scan the optional fraction of a JSON numeral (`.[0-9]+`), then the
exponent. -/
def scanJsonFrac (acc : List Char) (cs : List Char) : Option (List Char × List Char) :=
  match cs with
  | '.' :: rest =>
    match rest.takeWhile Char.isDigit with
    | [] => none
    | fs => scanJsonExp (acc ++ '.' :: fs) (rest.dropWhile Char.isDigit)
  | _ => scanJsonExp acc cs

/-- Scan a JSON numeral after the optional minus sign: integer part `0`
or `[1-9][0-9]*` (leading zeros are a syntax error), optional fraction,
optional exponent. Returns the numeral's characters and the rest. -/
def scanJsonNum (cs : List Char) : Option (List Char × List Char) :=
  match cs with
  | [] => none
  | c :: rest =>
    if c = '0' then scanJsonFrac ['0'] rest
    else if c.isDigit then
      scanJsonFrac ((c :: rest).takeWhile Char.isDigit) ((c :: rest).dropWhile Char.isDigit)
    else none

/-- A JSON numeral denotes zero exactly when every mantissa digit is `0`
(no exponent can make a non-zero mantissa zero; numerals whose `Number`
value merely underflows to zero are outside the model). Used only for JS
truthiness of parsed numbers. -/
def jsonNumIsZero (lit : String) : Bool :=
  ((lit.data.takeWhile (fun c => !(c = 'e' || c = 'E'))).filter Char.isDigit).all
    (fun c => c = '0')

mutual

/-- Parse one JSON value; fuel bounds the recursion depth. -/
def parseJsonVal : Nat → List Char → Option (Json × List Char)
  | 0, _ => none
  | fuel + 1, cs =>
    match cs.dropWhile isJsWs with
    | [] => none
    | c :: rest =>
      if c = '"' then (parseJsonStrChars rest).map (fun p => (.str (String.mk p.1), p.2))
      else if c = '[' then parseJsonArr fuel rest
      else if c = lbrace then parseJsonObj fuel rest
      else if c = '-' then
        match scanJsonNum rest with
        | some (ds, rest2) => some (.num (String.mk ('-' :: ds)), rest2)
        | none => none
      else if c.isDigit then
        match scanJsonNum (c :: rest) with
        | some (ds, rest2) => some (.num (String.mk ds), rest2)
        | none => none
      else if c = 'n' then
        match rest with
        | 'u' :: 'l' :: 'l' :: r => some (.null, r)
        | _ => none
      else if c = 't' then
        match rest with
        | 'r' :: 'u' :: 'e' :: r => some (.bool true, r)
        | _ => none
      else if c = 'f' then
        match rest with
        | 'a' :: 'l' :: 's' :: 'e' :: r => some (.bool false, r)
        | _ => none
      else none

/-- Parse a JSON array after the opening bracket. -/
def parseJsonArr : Nat → List Char → Option (Json × List Char)
  | 0, _ => none
  | fuel + 1, cs =>
    match cs.dropWhile isJsWs with
    | [] => none
    | c :: rest =>
      if c = ']' then some (.arr [], rest)
      else parseJsonArrRest fuel [] (c :: rest)

/-- Parse the comma-separated elements of a JSON array. -/
def parseJsonArrRest : Nat → List Json → List Char → Option (Json × List Char)
  | 0, _, _ => none
  | fuel + 1, acc, cs =>
    match parseJsonVal fuel cs with
    | none => none
    | some (j, rest) =>
      match rest.dropWhile isJsWs with
      | [] => none
      | c :: rest2 =>
        if c = ',' then parseJsonArrRest fuel (acc ++ [j]) rest2
        else if c = ']' then some (.arr (acc ++ [j]), rest2)
        else none

/-- Parse a JSON object after the opening brace. -/
def parseJsonObj : Nat → List Char → Option (Json × List Char)
  | 0, _ => none
  | fuel + 1, cs =>
    match cs.dropWhile isJsWs with
    | [] => none
    | c :: rest =>
      if c = rbrace then some (.obj [], rest)
      else parseJsonObjRest fuel [] (c :: rest)

/-- Parse the comma-separated members of a JSON object. -/
def parseJsonObjRest : Nat → List (String × Json) → List Char → Option (Json × List Char)
  | 0, _, _ => none
  | fuel + 1, acc, cs =>
    match cs.dropWhile isJsWs with
    | [] => none
    | c :: rest =>
      if c = '"' then
        match parseJsonStrChars rest with
        | none => none
        | some (kcs, rest2) =>
          match rest2.dropWhile isJsWs with
          | [] => none
          | c2 :: rest3 =>
            if c2 = ':' then
              match parseJsonVal fuel rest3 with
              | none => none
              | some (v, rest4) =>
                match rest4.dropWhile isJsWs with
                | [] => none
                | c3 :: rest5 =>
                  if c3 = ',' then
                    parseJsonObjRest fuel (acc ++ [(String.mk kcs, v)]) rest5
                  else if c3 = rbrace then
                    some (.obj (acc ++ [(String.mk kcs, v)]), rest5)
                  else none
            else none
      else none

end

/-- `JSON.parse(s)`: `none` models the thrown `SyntaxError`. The fuel is
an upper bound on the recursion depth, generous enough for any input of
this length. -/
def jsonParse (s : String) : Option Json :=
  match parseJsonVal (4 * (s.length + 1)) s.data with
  | some (j, rest) => if rest.dropWhile isJsWs = [] then some j else none
  | none => none

/-! ## GET /apps/garage-data (both revisions)

The handlers build a dynamic JavaScript object keyed by metafield keys.
It is modelled as an insertion-ordered association list with JS property
semantics (`objGet` / `objSet`), holding values that are strings, numbers
(`none` = `NaN`) or parsed JSON. -/

/-- A JavaScript value stored in the garage-data response object. -/
inductive GVal where
  | str (s : String)
  | num (n : Option Int)
  | json (j : Json)

/-- JS truthiness of a parsed JSON value. -/
def jsonTruthy : Json → Bool
  | .null => false
  | .bool b => b
  | .num lit => if jsonNumIsZero lit then false else true
  | .str s => if s = "" then false else true
  | .arr _ => true
  | .obj _ => true

/-- JS truthiness of a `GVal` (`NaN` and `0` are falsy numbers). -/
def gvTruthy : GVal → Bool
  | .str s => if s = "" then false else true
  | .num none => false
  | .num (some i) => if i = 0 then false else true
  | .json j => jsonTruthy j

/-- `obj[k]` — `none` models `undefined`. -/
def objGet (g : List (String × GVal)) (k : String) : Option GVal :=
  match g with
  | [] => none
  | (k2, v) :: rest => if k2 = k then some v else objGet rest k

/-- `obj[k] = v` — overwrite in place, else append (JS property order). -/
def objSet (g : List (String × GVal)) (k : String) (v : GVal) : List (String × GVal) :=
  match g with
  | [] => [(k, v)]
  | (k2, v2) :: rest => if k2 = k then (k2, v) :: rest else (k2, v2) :: objSet rest k v

/-- `obj[k] || d` for a possibly-absent property. -/
def gvOr (v : Option GVal) (d : GVal) : GVal :=
  match v with
  | some x => if gvTruthy x then x else d
  | none => d

/-- Read `obj[k]` where the handler knows the value, if present, is still
the raw metafield string: absent behaves like `""` under `||`. Used only
at V1 read points, where every metafield value is a string. -/
def strAt (g : List (String × GVal)) (k : String) : String :=
  match objGet g k with
  | some (.str s) => s
  | _ => ""

/-- A (key, value) metafield node of the V1 garage query. -/
structure Metafield1 where
  key : String
  value : String
deriving DecidableEq, Repr

/-- A (key, value, type) metafield node of the V2 garage query. -/
structure Metafield2 where
  key : String
  value : String
  type : String
deriving DecidableEq, Repr

/-- The customer node of the V1 garage query response. -/
structure GarageNodeV1 where
  id : String
  firstName : Option String := none
  lastName : Option String := none
  metafields : List Metafield1 := []
deriving DecidableEq, Repr

/-- The customer node of the V2 garage query response. -/
structure GarageNodeV2 where
  id : String
  firstName : Option String := none
  lastName : Option String := none
  displayName : Option String := none
  metafields : List Metafield2 := []
deriving DecidableEq, Repr

/-- V1 metafield fold (server.js:145-147): every value stored as a raw
string, last write wins on duplicate keys. -/
def foldMf1 (mfs : List Metafield1) (g : List (String × GVal)) : List (String × GVal) :=
  mfs.foldl (fun g mf => objSet g mf.key (.str mf.value)) g

/-- V1 GET /apps/garage-data (server.js:136-164) after a successful query
returning the customer node: `none` models the `JSON.parse` throw being
caught and answered with HTTP 500, so the request fails as a whole. -/
def garageV1 (n : GarageNodeV1) : Option (List (String × GVal)) :=
  let g0 := foldMf1 n.metafields [("id", GVal.str n.id)]
  let g1 := objSet g0 "username"
    (.str (jsOr (strAt g0 "username") (fullName n.firstName n.lastName)))
  let g2 := objSet g1 "level" (.num (jsParseInt10 (jsOr (strAt g1 "level") "1")))
  let g3 := objSet g2 "xp" (.num (jsParseInt10 (jsOr (strAt g2 "xp") "0")))
  let g4 := objSet g3 "victories" (.num (jsParseInt10 (jsOr (strAt g3 "victories") "0")))
  let g5 := objSet g4 "tier" (.str (jsOr (strAt g4 "tier") "Recruit"))
  let g6 := objSet g5 "country" (.str (jsOr (strAt g5 "country") "Unknown"))
  let g7 := objSet g6 "faction" (.str (jsOr (strAt g6 "faction") "Independent"))
  let g8 := objSet g7 "avatar_url" (.str (jsOr (strAt g7 "avatar_url") ""))
  let g9 := objSet g8 "car_image_url" (.str (jsOr (strAt g8 "car_image_url") ""))
  match jsonParse (jsOr (strAt g9 "achievements") "[]") with
  | some j => some (objSet g9 "achievements" (.json j))
  | none => none

/-- V2 metafield fold (part_000:157-172): integer-typed values are parsed
with `parseInt`, JSON-typed values (or the `achievements` key) are parsed
with `JSON.parse` and kept as the raw string when that throws; everything
else is stored as a string. -/
def foldMf2 (mfs : List Metafield2) (g : List (String × GVal)) : List (String × GVal) :=
  mfs.foldl (fun g mf =>
    if mf.type = "integer" ∨ mf.type = "number_integer" then
      objSet g mf.key (.num (jsParseInt10 mf.value))
    else if mf.type = "json_string" ∨ mf.key = "achievements" then
      match jsonParse mf.value with
      | some j => objSet g mf.key (.json j)
      | none => objSet g mf.key (.str mf.value)
    else objSet g mf.key (.str mf.value)) g

/-- V2 GET /apps/garage-data (part_000:140-188) after a successful query:
per-field parse failures degrade rather than throw, so the handler is
total. -/
def garageV2 (n : GarageNodeV2) : List (String × GVal) :=
  let unameDefault := jsOr (optVal n.displayName) (fullName n.firstName n.lastName)
  let g0 := foldMf2 n.metafields
    [("id", GVal.str n.id), ("username_default", GVal.str unameDefault)]
  let g1 := objSet g0 "username"
    (gvOr (objGet g0 "username") (gvOr (objGet g0 "username_default") (.str "Unnamed Pilot")))
  let g2 := objSet g1 "level" (gvOr (objGet g1 "level") (.num (some 1)))
  let g3 := objSet g2 "xp" (gvOr (objGet g2 "xp") (.num (some 0)))
  let g4 := objSet g3 "victories" (gvOr (objGet g3 "victories") (.num (some 0)))
  let g5 := objSet g4 "tier"
    (gvOr (objGet g4 "tier_text") (gvOr (objGet g4 "tier") (.str "Recruit")))
  let g6 := objSet g5 "country" (gvOr (objGet g5 "country") (.str "Unknown"))
  let g7 := objSet g6 "faction" (gvOr (objGet g6 "faction") (.str "Independent"))
  let g8 := objSet g7 "avatar_url" (gvOr (objGet g7 "avatar_url") (.str ""))
  let g9 := objSet g8 "car_image_url" (gvOr (objGet g8 "car_image_url") (.str ""))
  objSet g9 "achievements" (gvOr (objGet g9 "achievements") (.json (.arr [])))


/-! ## Theorems -/

/-- A concrete valid update body used by closed statements below. -/
def demoBody : UpdateBody :=
  { customerId := some "7", metafields := some [{ key := "xp", value := "5" }] }

/-- The upstream metafield produced for `demoBody`'s single entry. -/
def demoOut : MetafieldOut :=
  { nspace := "rc_arsenal"
    key := "xp"
    value := "5"
    type := "single_line_text_field" }

/-- The upstream mutation input produced for `demoBody`. -/
def demoInput : CustomerInput :=
  { id := "gid://shopify/Customer/7"
    metafields := [demoOut] }

/-- C1: with no admin secret configured, the claim says every
POST /apps/admin-update request is denied with 403 and the update handler
is not invoked. The V2 revision (part_000) instead calls `next()` whenever
`ADMIN_SECRET` is falsy, so the update handler runs and the upstream
mutation is attempted — fail-open, contradicting the claim and the spec's
mandated fail-closed policy. The V1 revision (server.js) does fail closed:
no header value can equal an unset secret. -/
theorem adminGate_unconfigured_fail_open :
    adminUpdateV2 none (some "anything") demoBody = .handled (.upstream demoInput)
    ∧ adminUpdateV2 none none demoBody = .handled (.upstream demoInput)
    ∧ adminUpdateV1 none (some "anything") demoBody = .denied
    ∧ adminUpdateV1 none none demoBody = .denied :=
  ⟨rfl, rfl, rfl, rfl⟩

/-- C2: when an admin secret is configured (a non-empty string, the only
truthy case) and the supplied `X-Admin-Secret` header is missing or not
exactly equal to it, both revisions answer 403 from the gate and the
update handler is never reached, so no upstream call occurs. -/
theorem adminGate_configured_mismatch_denied (s : String) (header : Option String)
    (b : UpdateBody) (hs : s ≠ "") (hm : header ≠ some s) :
    adminUpdateV1 (some s) header b = .denied
    ∧ adminUpdateV2 (some s) header b = .denied := by
  have hgate1 : adminAuthV1 (some s) header = .deny := by
    cases header with
    | none => rfl
    | some h =>
      have hcond : ¬(h ≠ "" ∧ (some s : Option String) = some h) := by
        rintro ⟨-, heq⟩
        exact hm (by rw [Option.some.injEq] at heq; rw [heq])
      simp only [adminAuthV1, if_neg hcond]
  have hgate2 : adminAuthV2 (some s) header = adminAuthV1 (some s) header := by
    have hcond : ¬((some s : Option String) = none ∨ (some s : Option String) = some "") := by
      rintro (h | h)
      · exact Option.noConfusion h
      · exact hs (Option.some.inj h)
    unfold adminAuthV2 adminAuthV1
    rw [if_neg hcond]
  constructor
  · unfold adminUpdateV1
    rw [hgate1]
  · unfold adminUpdateV2
    rw [hgate2, hgate1]

/-- Witness for C2 at a concrete secret, header and body. -/
theorem adminGate_configured_mismatch_denied_witness :
    adminUpdateV1 (some "sekrit") (some "wrong") demoBody = .denied
    ∧ adminUpdateV2 (some "sekrit") (some "wrong") demoBody = .denied :=
  adminGate_configured_mismatch_denied "sekrit" (some "wrong") demoBody
    (by decide) (by decide)

/-- C9 counterexample: in the V1 revision (server.js:209) an empty
`metafields` array passes validation — the response is not 400 and the
upstream mutation is attempted with an empty metafield list, against the
claim. -/
theorem update_empty_metafields_counterexample :
    updateCustomerV1 { customerId := some "7", metafields := some [] }
      = .upstream { id := "gid://shopify/Customer/7", metafields := [] } := rfl

/-- C9 amended: the V2 revision validates exactly as the claim states
(missing id, missing/non-array metafields, or an empty list all yield 400
with no upstream call); the V1 revision accepts an empty metafields list
and attempts the upstream mutation with it, rejecting only a missing id
or a missing/non-array metafields value. -/
theorem update_validation_behavior (b : UpdateBody) :
    (b.customerId = none ∨ b.customerId = some "" ∨ b.metafields = none
      → updateCustomerV1 b = .badRequest ∧ updateCustomerV2 b = .badRequest)
    ∧ (b.metafields = some [] → updateCustomerV2 b = .badRequest)
    ∧ (∀ c mfs, b.customerId = some c → c ≠ "" → b.metafields = some mfs
      → updateCustomerV1 b
          = .upstream { id := qualifyIdV1 c, metafields := mfs.map toShopifyMetafield })
    ∧ (∀ c mfs, b.customerId = some c → c ≠ "" → b.metafields = some mfs → mfs ≠ []
      → updateCustomerV2 b
          = .upstream { id := qualifyIdV2 c, metafields := mfs.map toShopifyMetafield }) := by
  obtain ⟨cid, mfs⟩ := b
  refine ⟨?_, ?_, ?_, ?_⟩
  · rintro (h | h | h)
    · subst h
      cases mfs <;> exact ⟨rfl, rfl⟩
    · subst h
      cases mfs with
      | none => exact ⟨rfl, rfl⟩
      | some l => exact ⟨by simp [updateCustomerV1], by simp [updateCustomerV2]⟩
    · subst h
      cases cid <;> exact ⟨rfl, rfl⟩
  · rintro h
    subst h
    cases cid with
    | none => rfl
    | some c => simp [updateCustomerV2]
  · rintro c mfs2 h1 hc h2
    subst h1
    subst h2
    simp only [updateCustomerV1, if_neg hc]
  · rintro c mfs2 h1 hc h2 hne
    subst h1
    subst h2
    have hcond : ¬(c = "" ∨ mfs2 = []) := by
      rintro (h | h)
      · exact hc h
      · exact hne h
    simp only [updateCustomerV2, if_neg hcond]

/-- Witness for C9's amended statement at concrete bodies. -/
theorem update_validation_behavior_witness :
    updateCustomerV2 { customerId := some "7", metafields := some [] } = .badRequest
    ∧ updateCustomerV1 demoBody = .upstream demoInput
    ∧ updateCustomerV2 demoBody = .upstream demoInput :=
  ⟨(update_validation_behavior _).2.1 rfl,
   (update_validation_behavior demoBody).2.2.1 "7" [{ key := "xp", value := "5" }]
     rfl (by decide) rfl,
   (update_validation_behavior demoBody).2.2.2 "7" [{ key := "xp", value := "5" }]
     rfl (by decide) rfl (by decide)⟩

/-- C10: an update metafield entry without a type is sent upstream with
type `single_line_text_field`; an entry with a (truthy, i.e. non-empty)
type keeps it unchanged. The last conjunct ties the per-entry mapping to
the update endpoint's upstream input. -/
theorem metafield_type_default (mf : MetafieldInput) :
    (mf.type = none → (toShopifyMetafield mf).type = "single_line_text_field")
    ∧ (∀ t, mf.type = some t → t ≠ "" → (toShopifyMetafield mf).type = t)
    ∧ (∀ c mfs, c ≠ ""
      → updateCustomerV1 { customerId := some c, metafields := some (mf :: mfs) }
          = .upstream { id := qualifyIdV1 c,
                        metafields := toShopifyMetafield mf :: mfs.map toShopifyMetafield }) := by
  refine ⟨?_, ?_, ?_⟩
  · intro h
    simp [toShopifyMetafield, optVal, h, jsOr]
  · intro t ht hne
    simp [toShopifyMetafield, optVal, ht, jsOr, hne]
  · intro c mfs hc
    simp [updateCustomerV1, if_neg hc]

/-- Witness for C10 at concrete entries. -/
theorem metafield_type_default_witness :
    (toShopifyMetafield { key := "xp", value := "5" }).type = "single_line_text_field"
    ∧ (toShopifyMetafield { key := "xp", value := "5", type := some "number_integer" }).type
      = "number_integer" :=
  ⟨(metafield_type_default _).1 rfl,
   (metafield_type_default _).2.1 "number_integer" rfl (by decide)⟩

/-- C5 counterexample: the V1 revision prepends the gid prefix
unconditionally, so an already fully-qualified identifier supplied to the
update endpoint reaches upstream double-prefixed instead of unchanged. -/
theorem qualify_gid_counterexample :
    qualifyIdV1 "gid://shopify/Customer/123"
      = "gid://shopify/Customer/gid://shopify/Customer/123"
    ∧ updateCustomerV1 { customerId := some "gid://shopify/Customer/123",
                         metafields := some [{ key := "xp", value := "5" }] }
      = .upstream { id := "gid://shopify/Customer/gid://shopify/Customer/123",
                    metafields := [demoOut] } :=
  ⟨rfl, rfl⟩

/-- C5 amended: the V2 revision normalizes as the claim states on both the
profile-read and profile-update paths (bare id prefixed exactly once,
qualified id passed through); the V1 revision prepends the prefix
unconditionally on both paths, double-prefixing an already-qualified id. -/
theorem id_qualification_behavior (c : String) :
    qualifyIdV1 c = "gid://shopify/Customer/" ++ c
    ∧ (startsWithGid c = false → qualifyIdV2 c = "gid://shopify/Customer/" ++ c)
    ∧ (startsWithGid c = true → qualifyIdV2 c = c)
    ∧ (∀ mf mfs, c ≠ ""
      → updateCustomerV2 { customerId := some c, metafields := some (mf :: mfs) }
          = .upstream { id := qualifyIdV2 c,
                        metafields := (mf :: mfs).map toShopifyMetafield }) := by
  refine ⟨rfl, ?_, ?_, ?_⟩
  · intro h
    simp [qualifyIdV2, h]
  · intro h
    simp [qualifyIdV2, h]
  · intro mf mfs hc
    have hcond : ¬(c = "" ∨ (mf :: mfs : List MetafieldInput) = []) := by
      rintro (h | h)
      · exact hc h
      · exact List.noConfusion h
    simp only [updateCustomerV2, if_neg hcond]

/-- Witness for C5's amended statement at concrete identifiers. -/
theorem id_qualification_behavior_witness :
    qualifyIdV2 "77" = "gid://shopify/Customer/77"
    ∧ qualifyIdV2 "gid://shopify/Customer/77" = "gid://shopify/Customer/77" :=
  ⟨(id_qualification_behavior "77").2.1 (by decide),
   (id_qualification_behavior "gid://shopify/Customer/77").2.2.1 (by decide)⟩


/-- A truthy left operand wins in `a || b`. -/
theorem jsOr_of_ne {a b : String} (h : a ≠ "") : jsOr a b = a := if_neg h

/-- A falsy left operand defers to the right in `a || b`. -/
theorem jsOr_of_eq {a b : String} (h : a = "") : jsOr a b = b := by
  rw [jsOr, if_pos h]

/-- `a || b` is truthy whenever the fallback `b` is. -/
theorem jsOr_ne_empty {a b : String} (h : b ≠ "") : jsOr a b ≠ "" := by
  by_cases ha : a = ""
  · rw [jsOr_of_eq ha]; exact h
  · rw [jsOr_of_ne ha]; exact ha

/-- Decimal digits are not whitespace. -/
theorem isDigit_not_ws {c : Char} (h : c.isDigit = true) : isJsWs c = false := by
  rcases Bool.eq_false_or_eq_true (isJsWs c) with hw | hw
  · exfalso
    simp only [isJsWs, Bool.or_eq_true, decide_eq_true_eq] at hw
    rcases hw with ((h1 | h1) | h1) | h1 <;> subst h1 <;> exact absurd h (by decide)
  · exact hw

/-- Decimal digits are not the minus sign. -/
theorem isDigit_ne_dash {c : Char} (h : c.isDigit = true) : c ≠ '-' := by
  intro he; subst he; exact absurd h (by decide)

/-- Decimal digits are not the plus sign. -/
theorem isDigit_ne_plus {c : Char} (h : c.isDigit = true) : c ≠ '+' := by
  intro he; subst he; exact absurd h (by decide)

/-- `takeWhile isDigit` keeps an all-digit list whole. -/
theorem takeWhile_isDigit_all {ds : List Char} (h : ∀ c ∈ ds, c.isDigit = true) :
    ds.takeWhile Char.isDigit = ds := by
  induction ds with
  | nil => rfl
  | cons d rest ih =>
    rw [List.takeWhile_cons, if_pos (h d (List.mem_cons_self d rest))]
    rw [ih (fun c hc => h c (List.mem_cons_of_mem d hc))]

/-- A non-empty digit string parses to its base-10 value. -/
theorem jsParseInt10_digits (d : Char) (ds : List Char)
    (hd : d.isDigit = true) (hds : ∀ c ∈ ds, c.isDigit = true) :
    jsParseInt10 (String.mk (d :: ds)) = some ((digitsToNat (d :: ds) : Nat) : Int) := by
  have hall : ∀ c ∈ d :: ds, c.isDigit = true := by
    intro c hc
    rcases List.mem_cons.mp hc with rfl | hc2
    · exact hd
    · exact hds c hc2
  unfold jsParseInt10
  have hdata : (String.mk (d :: ds)).data = d :: ds := rfl
  rw [hdata, List.dropWhile_cons, if_neg (by rw [isDigit_not_ws hd]; exact Bool.false_ne_true)]
  simp only []
  rw [if_neg (isDigit_ne_dash hd), if_neg (isDigit_ne_plus hd)]
  unfold parseDigits
  rw [takeWhile_isDigit_all hall]
  rfl

/-- Projection into the V1 garage response: the value the response
object holds at `k`, or `none` when the key is absent or the request
failed with 500. -/
def garageGetV1 (n : GarageNodeV1) (k : String) : Option GVal :=
  match garageV1 n with
  | some g => objGet g k
  | none => none

/-- Projection into the V2 garage response object. -/
def garageGetV2 (n : GarageNodeV2) (k : String) : Option GVal :=
  objGet (garageV2 n) k

/-- The default achievements literal `"[]"` parses to the empty array. -/
theorem jsonParse_empty_arr : jsonParse "[]" = some (Json.arr []) := rfl

/-- C4 counterexample: a stored `xp` of `"abc"` parses to `NaN`
(`Number.parseInt("abc", 10)`), so the killboard entry's `xp` is `NaN` in
both revisions — not the fallback `0` the claim requires on parse
failure; likewise the V1 garage-data `xp` field is `NaN`. -/
theorem numeric_parse_failure_counterexample :
    (mkPlayerV1 { id := "1", xp := some "abc" }).xp = none
    ∧ (mkPlayerV1 { id := "1", xp := some "abc" }).xp ≠ some 0
    ∧ (mkPlayerV2 { id := "1", xp := some "abc" }).xp = none
    ∧ garageGetV1 { id := "g1", metafields := [{ key := "xp", value := "abc" }] } "xp"
      = some (.num none) :=
  ⟨rfl, by decide, rfl, rfl⟩

/-- C4 amended: numeric fields equal the fixed fallback when the stored
attribute is absent or the empty string; when the value is present and
non-empty, the killboard fields of both revisions and the V1 garage-data
fields equal `Number.parseInt(value, 10)` — the base-10 prefix parse when
one exists (sixth conjunct) and `NaN`, not the fallback, otherwise. The
V2 garage-data path parses only integer-type-hinted attributes, and there
a parse failure does degrade to the fallback (last conjunct). -/
theorem numeric_field_parse_behavior (n : KillboardNode) :
    (n.xp = none → (mkPlayerV1 n).xp = some 0 ∧ (mkPlayerV2 n).xp = some 0)
    ∧ (n.xp = some "" → (mkPlayerV1 n).xp = some 0)
    ∧ (n.level = none → (mkPlayerV1 n).level = some 1)
    ∧ (n.victories = none → (mkPlayerV1 n).victories = some 0)
    ∧ (∀ s, n.xp = some s → s ≠ ""
      → (mkPlayerV1 n).xp = jsParseInt10 s ∧ (mkPlayerV2 n).xp = jsParseInt10 s)
    ∧ (∀ d ds, d.isDigit = true → (∀ c ∈ ds, c.isDigit = true)
      → jsParseInt10 (String.mk (d :: ds)) = some ((digitsToNat (d :: ds) : Nat) : Int))
    ∧ (∀ idv s, s ≠ ""
      → garageGetV1 { id := idv, metafields := [{ key := "level", value := s }] } "level"
        = some (.num (jsParseInt10 s)))
    ∧ (∀ idv s, jsParseInt10 s = none
      → garageGetV2 { id := idv, metafields := [{ key := "level", value := s,
                                                  type := "integer" }] } "level"
        = some (.num (some 1))) := by
  refine ⟨?_, ?_, ?_, ?_, ?_, ?_, ?_, ?_⟩
  · intro h
    constructor <;> simp [mkPlayerV1, mkPlayerV2, h, optVal, jsOr] <;> decide
  · intro h
    simp [mkPlayerV1, h, optVal, jsOr]; decide
  · intro h
    simp [mkPlayerV1, h, optVal, jsOr]; decide
  · intro h
    simp [mkPlayerV1, h, optVal, jsOr]; decide
  · intro s hs hne
    constructor <;> simp [mkPlayerV1, mkPlayerV2, hs, optVal, jsOr_of_ne hne]
  · intro d ds hd hds
    exact jsParseInt10_digits d ds hd hds
  · intro idv s hne
    simp [garageGetV1, garageV1, foldMf1, objSet, objGet, strAt, jsOr, hne,
      jsonParse_empty_arr]
  · intro idv s hbad
    simp [garageGetV2, garageV2, foldMf2, objSet, objGet, gvOr, gvTruthy, hbad]

/-- Witness for C4's amended statement at concrete inputs. -/
theorem numeric_field_parse_behavior_witness :
    (mkPlayerV1 { id := "1" }).xp = some 0
    ∧ jsParseInt10 (String.mk ['4', '2']) = some ((digitsToNat ['4', '2'] : Nat) : Int)
    ∧ garageGetV2 { id := "g", metafields := [{ key := "level", value := "zzz",
                                                type := "integer" }] } "level"
      = some (.num (some 1)) :=
  ⟨((numeric_field_parse_behavior { id := "1" }).1 rfl).1,
   (numeric_field_parse_behavior { id := "1" }).2.2.2.2.2.1 '4' ['2'] (by decide) (by decide),
   (numeric_field_parse_behavior { id := "1" }).2.2.2.2.2.2.2 "g" "zzz" rfl⟩

/-- C6 counterexample: in the V1 revision the platform display name is
never consulted and the garage-data username can be empty: a customer
with no attributes and no name fields yields `username = ""` from
garage-data, and a customer whose only name information is `displayName`
is shown as "Unnamed Pilot" on the killboard. -/
theorem display_name_counterexample :
    garageGetV1 { id := "g1" } "username" = some (.str "")
    ∧ (mkPlayerV1 { id := "1", displayName := some "Ace" }).name = "Unnamed Pilot" :=
  ⟨rfl, rfl⟩

/-- C6 amended: the V2 revision resolves the display name exactly in
the claimed order — `username` attribute, platform `displayName`,
first/last concatenation, literal "Unnamed Pilot" — and never returns the
empty string; the V1 revision skips the `displayName` step (its query
does not even request the field), resolving `username`, first/last,
"Unnamed Pilot" on the killboard, and its garage-data username omits the
final literal so it can be empty (see the counterexample). -/
theorem display_name_resolution (n : KillboardNode) :
    (optVal n.username ≠ ""
      → (mkPlayerV2 n).name = optVal n.username ∧ (mkPlayerV1 n).name = optVal n.username)
    ∧ (optVal n.username = "" → optVal n.displayName ≠ ""
      → (mkPlayerV2 n).name = optVal n.displayName)
    ∧ (optVal n.username = "" → optVal n.displayName = ""
      → fullName n.firstName n.lastName ≠ ""
      → (mkPlayerV2 n).name = fullName n.firstName n.lastName)
    ∧ (optVal n.username = "" → optVal n.displayName = ""
      → fullName n.firstName n.lastName = ""
      → (mkPlayerV2 n).name = "Unnamed Pilot")
    ∧ (mkPlayerV2 n).name ≠ ""
    ∧ (mkPlayerV1 n).name ≠ ""
    ∧ (optVal n.username = "" → fullName n.firstName n.lastName ≠ ""
      → (mkPlayerV1 n).name = fullName n.firstName n.lastName)
    ∧ (optVal n.username = "" → fullName n.firstName n.lastName = ""
      → (mkPlayerV1 n).name = "Unnamed Pilot") := by
  refine ⟨?_, ?_, ?_, ?_, ?_, ?_, ?_, ?_⟩
  · intro h
    exact ⟨by simp [mkPlayerV2, jsOr_of_ne h], by simp [mkPlayerV1, jsOr_of_ne h]⟩
  · intro h1 h2
    simp [mkPlayerV2, jsOr_of_eq h1, jsOr_of_ne h2]
  · intro h1 h2 h3
    simp [mkPlayerV2, jsOr_of_eq h1, jsOr_of_eq h2, jsOr_of_ne h3]
  · intro h1 h2 h3
    simp [mkPlayerV2, jsOr_of_eq h1, jsOr_of_eq h2, jsOr_of_eq h3]
  · exact jsOr_ne_empty (jsOr_ne_empty (jsOr_ne_empty (by decide)))
  · exact jsOr_ne_empty (jsOr_ne_empty (by decide))
  · intro h1 h2
    simp [mkPlayerV1, jsOr_of_eq h1, jsOr_of_ne h2]
  · intro h1 h2
    simp [mkPlayerV1, jsOr_of_eq h1, jsOr_of_eq h2]

/-- Witness for C6's amended statement at concrete nodes. -/
theorem display_name_resolution_witness :
    (mkPlayerV2 { id := "1", username := some "Pilot1", displayName := some "Ace" }).name
      = "Pilot1"
    ∧ (mkPlayerV2 { id := "1", displayName := some "Ace" }).name = "Ace" :=
  ⟨((display_name_resolution _).1 (by decide)).1,
   (display_name_resolution _).2.1 rfl (by decide)⟩

/-- Sorted by experience points, largest first. -/
def XpSortedDesc (l : List Player) : Prop :=
  List.Pairwise (fun a b => xpKey b ≤ xpKey a) l

/-- Membership in the insertion step. -/
theorem mem_insertByXpDesc {x p : Player} {l : List Player} :
    x ∈ insertByXpDesc p l ↔ x = p ∨ x ∈ l := by
  induction l with
  | nil => simp [insertByXpDesc]
  | cons q qs ih =>
    by_cases h : xpKey p < xpKey q
    · simp only [insertByXpDesc, if_pos h, List.mem_cons, ih]
      tauto
    · simp only [insertByXpDesc, if_neg h, List.mem_cons]

/-- The insertion step preserves descending order. -/
theorem xpSortedDesc_insert {p : Player} {l : List Player} (h : XpSortedDesc l) :
    XpSortedDesc (insertByXpDesc p l) := by
  induction l with
  | nil => simp [insertByXpDesc, XpSortedDesc]
  | cons q qs ih =>
    rcases List.pairwise_cons.mp h with ⟨hq, hqs⟩
    by_cases hlt : xpKey p < xpKey q
    · simp only [insertByXpDesc, if_pos hlt]
      refine List.pairwise_cons.mpr ⟨?_, ih hqs⟩
      intro x hx
      rcases mem_insertByXpDesc.mp hx with rfl | hx2
      · exact le_of_lt hlt
      · exact hq x hx2
    · simp only [insertByXpDesc, if_neg hlt]
      refine List.pairwise_cons.mpr ⟨?_, h⟩
      intro x hx
      rcases List.mem_cons.mp hx with rfl | hx2
      · exact le_of_not_lt hlt
      · exact le_trans (hq x hx2) (le_of_not_lt hlt)

/-- The killboard sort produces a descending list. -/
theorem xpSortedDesc_sort (l : List Player) : XpSortedDesc (sortByXpDesc l) := by
  induction l with
  | nil => simp [sortByXpDesc, XpSortedDesc]
  | cons p ps ih =>
    simp only [sortByXpDesc]
    exact xpSortedDesc_insert ih

/-- Inserting places an element before every equal-key element and does
not reorder the rest: filtering one key commutes with insertion. -/
theorem filter_insertByXpDesc (p : Player) (l : List Player) (k : Int) :
    (insertByXpDesc p l).filter (fun x => xpKey x == k)
      = if xpKey p == k then p :: l.filter (fun x => xpKey x == k)
        else l.filter (fun x => xpKey x == k) := by
  induction l with
  | nil =>
    by_cases h : (xpKey p == k) = true <;> simp [insertByXpDesc, List.filter, h]
  | cons q qs ih =>
    by_cases hlt : xpKey p < xpKey q
    · simp only [insertByXpDesc, if_pos hlt, List.filter_cons, ih]
      by_cases hq : (xpKey q == k) = true
      · have hpk : ¬((xpKey p == k) = true) := by
          intro hp
          have h1 : xpKey p = k := by simpa using hp
          have h2 : xpKey q = k := by simpa using hq
          rw [h1, h2] at hlt
          exact lt_irrefl k hlt
        simp [hq, hpk, List.filter_cons]
      · simp [hq, List.filter_cons]
    · simp only [insertByXpDesc, if_neg hlt, List.filter_cons]

/-- Stability: the sort preserves the relative order of entries with
equal experience points. -/
theorem filter_sortByXpDesc (l : List Player) (k : Int) :
    (sortByXpDesc l).filter (fun x => xpKey x == k)
      = l.filter (fun x => xpKey x == k) := by
  induction l with
  | nil => rfl
  | cons p ps ih =>
    simp only [sortByXpDesc, filter_insertByXpDesc, ih]
    simp [List.filter_cons]

/-- C8: the killboard response of either revision is sorted by the
ranking key (`xp`) in descending order, and entries with equal `xp` keep
the order in which upstream returned them — most recently updated first —
because the comparator uses only `xp` and the required-stable sort leaves
ties in input order. Scoped to responses whose `xp` values are all
numeric, since the engine's comparator order with `NaN` is unspecified. -/
theorem killboard_sorted_stable (nodes : List KillboardNode)
    (_hxp : ∀ n ∈ nodes, ((mkPlayerV1 n).xp).isSome = true) :
    XpSortedDesc (killboardV1 nodes)
    ∧ (∀ k, (killboardV1 nodes).filter (fun x => xpKey x == k)
        = (nodes.map mkPlayerV1).filter (fun x => xpKey x == k))
    ∧ XpSortedDesc (killboardV2 nodes)
    ∧ (∀ k, (killboardV2 nodes).filter (fun x => xpKey x == k)
        = (nodes.map mkPlayerV2).filter (fun x => xpKey x == k)) :=
  ⟨xpSortedDesc_sort _, fun k => filter_sortByXpDesc _ k,
   xpSortedDesc_sort _, fun k => filter_sortByXpDesc _ k⟩

/-- Witness for C8 at a concrete node list containing a tie. -/
theorem killboard_sorted_stable_witness :
    XpSortedDesc (killboardV1 [{ id := "a", xp := some "10" }, { id := "b", xp := some "5" },
                               { id := "c", xp := some "10" }])
    ∧ (∀ k, (killboardV1 [{ id := "a", xp := some "10" }, { id := "b", xp := some "5" },
                          { id := "c", xp := some "10" }]).filter (fun x => xpKey x == k)
        = ([{ id := "a", xp := some "10" }, { id := "b", xp := some "5" },
            { id := "c", xp := some "10" }].map mkPlayerV1).filter (fun x => xpKey x == k)) :=
  ⟨(killboard_sorted_stable _ (by decide)).1,
   (killboard_sorted_stable _ (by decide)).2.1⟩

/-- C3 counterexample: with a stored achievements value that is not
valid JSON, the V1 revision throws inside `JSON.parse` and the whole
request fails with HTTP 500 (the claim says it must still succeed), and
the V2 revision succeeds but keeps the raw string rather than falling
back to an empty sequence. -/
theorem achievements_malformed_counterexample :
    garageV1 { id := "g1", metafields := [{ key := "achievements", value := "oops" }] } = none
    ∧ garageGetV2 { id := "g1",
                    metafields := [{ key := "achievements", value := "oops",
                                     type := "json_string" }] } "achievements"
      = some (.str "oops") :=
  ⟨rfl, rfl⟩

/-- C3 amended: a present, non-empty achievements value that fails to
parse as JSON is never replaced by an empty sequence: the V1 revision
fails the whole request with HTTP 500, while the V2 revision serves the
request with the raw string retained as the achievements value. -/
theorem achievements_malformed_behavior (idv : String) (f l dn : Option String) (s : String)
    (hne : s ≠ "") (hbad : jsonParse s = none) :
    garageV1 { id := idv, firstName := f, lastName := l,
               metafields := [{ key := "achievements", value := s }] } = none
    ∧ garageGetV2 { id := idv, firstName := f, lastName := l, displayName := dn,
                    metafields := [{ key := "achievements", value := s,
                                     type := "json_string" }] } "achievements"
      = some (.str s) := by
  constructor
  · simp [garageV1, foldMf1, objSet, objGet, strAt, jsOr, hne, hbad]
  · simp [garageGetV2, garageV2, foldMf2, objSet, objGet, gvOr, gvTruthy, hne, hbad]

/-- Witness for C3's amended statement at a concrete malformed value. -/
theorem achievements_malformed_behavior_witness :
    garageV1 { id := "g1", firstName := some "A", lastName := some "B",
               metafields := [{ key := "achievements", value := "not-json" }] } = none
    ∧ garageGetV2 { id := "g1", firstName := some "A", lastName := some "B",
                    displayName := some "AB",
                    metafields := [{ key := "achievements", value := "not-json",
                                     type := "json_string" }] } "achievements"
      = some (.str "not-json") :=
  achievements_malformed_behavior "g1" (some "A") (some "B") (some "AB") "not-json"
    (by decide) rfl

/-- `obj[k] || d` where the property holds a string and the default is a
string is `||` on the strings. -/
theorem gvOr_str (s d : String) :
    gvOr (some (.str s)) (.str d) = .str (jsOr s d) := by
  by_cases h : s = ""
  · subst h
    rfl
  · simp [gvOr, gvTruthy, jsOr, h]

/-- C7 counterexample: for a record with zero attributes and no name
fields, the V1 (server.js) garage response's username is the empty
string, not the documented default of the name-resolution chain
("Unnamed Pilot"); the V2 (part_000) response does carry the documented
default. -/
theorem garage_username_default_counterexample :
    garageGetV1 { id := "g7" } "username" = some (.str "")
    ∧ garageGetV2 { id := "g7" } "username" = some (.str "Unnamed Pilot") :=
  ⟨rfl, rfl⟩

set_option maxHeartbeats 1600000 in
/-- C7 amended: for a customer record with zero attributes set, the
garage-data response of either revision still contains every documented
defaulted key, and the nine non-name keys carry their documented defaults
— level 1, xp 0, victories 0, tier "Recruit", country "Unknown", faction
"Independent", empty avatar and car image URLs, and an empty achievements
sequence. The username key is present in both, but only the V2 revision
gives it the documented default: V2 resolves `displayName`, then the
first/last concatenation, then "Unnamed Pilot", while V1 stores the bare
first/last concatenation with no final literal, which is the empty string
— not the documented default — when no name fields are set (see the
counterexample). -/
theorem garage_defaults_present (i1 : String) (f1 l1 : Option String)
    (i2 : String) (f2 l2 d2 : Option String) :
    (∃ g, garageV1 { id := i1, firstName := f1, lastName := l1, metafields := [] } = some g
      ∧ objGet g "username" = some (.str (fullName f1 l1))
      ∧ objGet g "level" = some (.num (some 1))
      ∧ objGet g "xp" = some (.num (some 0))
      ∧ objGet g "victories" = some (.num (some 0))
      ∧ objGet g "tier" = some (.str "Recruit")
      ∧ objGet g "country" = some (.str "Unknown")
      ∧ objGet g "faction" = some (.str "Independent")
      ∧ objGet g "avatar_url" = some (.str "")
      ∧ objGet g "car_image_url" = some (.str "")
      ∧ objGet g "achievements" = some (.json (.arr [])))
    ∧ (garageGetV2 { id := i2, firstName := f2, lastName := l2, displayName := d2,
                     metafields := [] } "username"
        = some (.str (jsOr (jsOr (optVal d2) (fullName f2 l2)) "Unnamed Pilot"))
      ∧ garageGetV2 { id := i2, firstName := f2, lastName := l2, displayName := d2,
                      metafields := [] } "level" = some (.num (some 1))
      ∧ garageGetV2 { id := i2, firstName := f2, lastName := l2, displayName := d2,
                      metafields := [] } "xp" = some (.num (some 0))
      ∧ garageGetV2 { id := i2, firstName := f2, lastName := l2, displayName := d2,
                      metafields := [] } "victories" = some (.num (some 0))
      ∧ garageGetV2 { id := i2, firstName := f2, lastName := l2, displayName := d2,
                      metafields := [] } "tier" = some (.str "Recruit")
      ∧ garageGetV2 { id := i2, firstName := f2, lastName := l2, displayName := d2,
                      metafields := [] } "country" = some (.str "Unknown")
      ∧ garageGetV2 { id := i2, firstName := f2, lastName := l2, displayName := d2,
                      metafields := [] } "faction" = some (.str "Independent")
      ∧ garageGetV2 { id := i2, firstName := f2, lastName := l2, displayName := d2,
                      metafields := [] } "avatar_url" = some (.str "")
      ∧ garageGetV2 { id := i2, firstName := f2, lastName := l2, displayName := d2,
                      metafields := [] } "car_image_url" = some (.str "")
      ∧ garageGetV2 { id := i2, firstName := f2, lastName := l2, displayName := d2,
                      metafields := [] } "achievements" = some (.json (.arr []))) := by
  refine ⟨⟨_, rfl, rfl, rfl, rfl, rfl, rfl, rfl, rfl, rfl, rfl, rfl⟩,
          ?_, rfl, rfl, rfl, rfl, rfl, rfl, rfl, rfl, rfl⟩
  have h0 : garageGetV2 { id := i2, firstName := f2, lastName := l2, displayName := d2,
                          metafields := [] } "username"
      = gvOr (some (.str (jsOr (optVal d2) (fullName f2 l2)))) (.str "Unnamed Pilot") := rfl
  rw [h0, gvOr_str]
